import Mathlib

/-!
Shallow embedding of the `@geoql/maplibre-gl-snow` WebGPU snow particle layer
(`src/index.ts` and the screen-space billboard variant of the particle
material), together with theorems checking the natural-language specification
against it.

Modelling conventions:
* GPU `float` arithmetic is embedded as exact rational arithmetic (`ℚ`);
  the wind conversion, which uses `Math.sin`/`Math.cos`/`Math.pow`, is
  embedded over `ℝ`.
* The TSL `hash` primitive is an abstract function `ℕ → ℚ` whose range
  `[0, 1)` enters theorems as a hypothesis.
* The stateful `SnowGPU` class is embedded as a state record `GPUState`
  with one Lean function per method, each translated line by line.
-/

/-- A 3-component vector of rationals, mirroring a TSL `vec3`. -/
structure Vec3 where
  x : ℚ
  y : ℚ
  z : ℚ
deriving DecidableEq, Repr

/-- A 4-component vector of rationals, mirroring a TSL `vec4`. -/
structure Vec4 where
  x : ℚ
  y : ℚ
  z : ℚ
  w : ℚ
deriving DecidableEq, Repr

/-- One particle of the Particle Store: `posBuffer` entry
`vec3(mercX, mercY, mercAlt)` and `velBuffer` entry
`vec4(vx, vy, speedMul, seed)`. -/
structure Particle where
  pos : Vec3
  vel : Vec4
deriving DecidableEq, Repr

/-- The per-frame simulation uniforms read by the compute kernels:
`uCenter`, `uHalfSpan`, `uAltSpan`, `uFallSpeed`, `uWindX`, `uWindY`
from class `SnowGPU`. -/
structure SimUniforms where
  uCenterX : ℚ
  uCenterY : ℚ
  uHalfSpan : ℚ
  uAltSpan : ℚ
  uFallSpeed : ℚ
  uWindX : ℚ
  uWindY : ℚ
deriving DecidableEq, Repr

/-- The Spawn Kernel `initFn` of `_buildParticleSystem`, for particle index
`i`.  The four hashed randoms are `rx = hash(i)`, `ry = hash(i + s1)`,
`rz = hash(i + s2)`, `rs = hash(i + s3)`, where `s1, s2, s3` are the salts
produced by the three `randUint()` calls baked into the shader at build time
(`hashFn` abstracts the TSL `hash` primitive). -/
def initParticle (hashFn : ℕ → ℚ) (i s1 s2 s3 : ℕ) (u : SimUniforms) :
    Particle :=
  let rx := hashFn i
  let ry := hashFn (i + s1)
  let rz := hashFn (i + s2)
  let rs := hashFn (i + s3)
  { pos :=
      { x := u.uCenterX + (rx * (u.uHalfSpan * 2) - u.uHalfSpan)
        y := u.uCenterY + (ry * (u.uHalfSpan * 2) - u.uHalfSpan)
        z := rz * u.uAltSpan }
    vel :=
      { x := 0
        y := 0
        z := rs * (1/2) + 1/2
        w := rs } }

/-- The additive salts of the four `hash` calls of `initFn`, in call order:
`hash(instanceIndex)` adds nothing (salt `0`), the other three add the
`randUint()` draws `s1, s2, s3`. -/
def spawnSaltList (s1 s2 s3 : ℕ) : List ℕ := [0, s1, s2, s3]

/-- The Update Kernel `updateFn` of `_buildParticleSystem`: add the wind
deltas to `pos.x`/`pos.y`, subtract `uFallSpeed * vel.z` from `pos.z`, then,
if the new `pos.z` is below zero, respawn `pos.x`/`pos.y` from the two fresh
hashed randoms `rx2, ry2` inside the current spawn box and reset
`pos.z = uAltSpan`. -/
def updateParticle (u : SimUniforms) (rx2 ry2 : ℚ) (p : Particle) :
    Particle :=
  let p1 : Particle :=
    { pos :=
        { x := p.pos.x + u.uWindX
          y := p.pos.y + u.uWindY
          z := p.pos.z - u.uFallSpeed * p.vel.z }
      vel := p.vel }
  if p1.pos.z < 0 then
    { pos :=
        { x := u.uCenterX + (rx2 * (u.uHalfSpan * 2) - u.uHalfSpan)
          y := u.uCenterY + (ry2 * (u.uHalfSpan * 2) - u.uHalfSpan)
          z := u.uAltSpan }
      vel := p1.vel }
  else p1

/-- A 4x4 matrix with rational entries, given by rows; mirrors the
`uMainMatrix` uniform holding MapLibre's mercator projection matrix. -/
structure Mat4 where
  row0 : Vec4
  row1 : Vec4
  row2 : Vec4
  row3 : Vec4
deriving DecidableEq, Repr

/-- Dot product of two 4-vectors. -/
def dot4 (a b : Vec4) : ℚ := a.x * b.x + a.y * b.y + a.z * b.z + a.w * b.w

/-- Matrix-vector product `M * v`, the TSL `uMainMatrix.mul(center4)`. -/
def mat4MulVec (M : Mat4) (v : Vec4) : Vec4 :=
  { x := dot4 M.row0 v
    y := dot4 M.row1 v
    z := dot4 M.row2 v
    w := dot4 M.row3 v }

/-- The screen-space billboard `material.positionNode` of the particle
material: project the particle's mercator position by the main matrix,
divide by `w` for NDC, then add the plane-local offsets `(localX, localY)`
scaled by the flake radius converted from CSS pixels to NDC per axis
(`rNDC = uRadiusPx * 2 / viewport`), with depth `clip.z / w` passed
through. -/
def positionNode (M : Mat4) (radiusPx viewportW viewportH : ℚ)
    (particlePos : Vec3) (localX localY : ℚ) : Vec3 :=
  let center4 : Vec4 :=
    { x := particlePos.x, y := particlePos.y, z := particlePos.z, w := 1 }
  let clipCenter := mat4MulVec M center4
  let w := clipCenter.w
  let rNDCx := radiusPx * 2 / viewportW
  let rNDCy := radiusPx * 2 / viewportH
  { x := clipCenter.x / w + localX * rNDCx
    y := clipCenter.y / w + localY * rNDCy
    z := clipCenter.z / w }

/-- `MIN_PARTICLE_COUNT` from `index.ts`. -/
def MIN_PARTICLE_COUNT : ℤ := 10000

/-- `MAX_PARTICLE_COUNT` from `index.ts`. -/
def MAX_PARTICLE_COUNT : ℤ := 200000

/-- `DEFAULT_PARTICLE_COUNT` from `index.ts`. -/
def DEFAULT_PARTICLE_COUNT : ℤ := 100000

/-- The density-to-count mapping of `SnowGPU.setDensity`:
`Math.round(MIN + clamp(density, 0, 1) * (MAX - MIN))`.  Mathlib's `round`
on `ℚ` rounds halves up, as `Math.round` does for the nonnegative values
arising here. -/
def densityToCount (density : ℚ) : ℤ :=
  round ((MIN_PARTICLE_COUNT : ℚ) +
    max 0 (min 1 density) * ((MAX_PARTICLE_COUNT : ℚ) - MIN_PARTICLE_COUNT))

/-- CPU-side state of the `SnowGPU` class.  GPU resources are modelled by
presence flags and by allocation identifiers drawn from the fresh counter
`nextId`, so that a rebuilt buffer is visibly a different allocation.
`initDispatches`, `updateDispatches` and `renders` count the
`renderer.compute(computeInit)`, `renderer.compute(computeUpdate)` and
`renderer.render` calls issued so far. -/
structure GPUState where
  rendererUp : Bool
  sceneUp : Bool
  cameraUp : Bool
  initialized : Bool
  computeReady : Bool
  initRan : Bool
  particleCount : ℤ
  posBufferId : Option ℕ
  velBufferId : Option ℕ
  meshId : Option ℕ
  nextId : ℕ
  initDispatches : ℕ
  updateDispatches : ℕ
  renders : ℕ
deriving DecidableEq, Repr

/-- The field values a fresh `SnowGPU` instance starts with: no renderer,
no buffers, `particleCount = DEFAULT_PARTICLE_COUNT`, `_initRan = false`. -/
def initialGPUState : GPUState :=
  { rendererUp := false
    sceneUp := false
    cameraUp := false
    initialized := false
    computeReady := false
    initRan := false
    particleCount := DEFAULT_PARTICLE_COUNT
    posBufferId := none
    velBufferId := none
    meshId := none
    nextId := 0
    initDispatches := 0
    updateDispatches := 0
    renders := 0 }

/-- `SnowGPU._buildParticleSystem`: guarded on renderer and scene, allocates
the two storage buffers and the snow mesh (fresh allocation identifiers) and
builds both compute pipelines. -/
def buildParticleSystem (s : GPUState) : GPUState :=
  if s.rendererUp && s.sceneUp then
    { s with
      posBufferId := some s.nextId
      velBufferId := some (s.nextId + 1)
      meshId := some (s.nextId + 2)
      nextId := s.nextId + 3
      computeReady := true }
  else s

/-- `SnowGPU.init`: `gpuAvailable` models the `navigator.gpu` probe and
`rendererInitOk` models `await this.renderer.init()` succeeding rather than
throwing (the renderer field is assigned before that await, so it is set
even on the throwing path, which the `catch` converts to `false`).  On
success the scene and camera are built, `_buildParticleSystem` and the fog
overlay run, and `initialized` is set; the returned Bool is the resolved
value of the promise. -/
def snowInit (gpuAvailable rendererInitOk : Bool) (s : GPUState) :
    GPUState × Bool :=
  if !gpuAvailable then (s, false)
  else
    let s1 := { s with rendererUp := true }
    if !rendererInitOk then (s1, false)
    else
      let s2 := { s1 with sceneUp := true, cameraUp := true }
      let s3 := buildParticleSystem s2
      ({ s3 with initialized := true }, true)

/-- `SnowGPU.frame`: short-circuits unless renderer, scene, camera and
`initialized` are all present; otherwise dispatches the update compute pass
(when built) and renders. -/
def snowFrame (s : GPUState) : GPUState :=
  if s.rendererUp && s.sceneUp && s.cameraUp && s.initialized then
    { s with
      updateDispatches :=
        s.updateDispatches + (if s.computeReady then 1 else 0)
      renders := s.renders + 1 }
  else s

/-- `SnowGPU.runInit`: returns immediately when the latch `_initRan` is set
or renderer or `computeInit` are absent; otherwise dispatches the Spawn
Kernel once and sets the latch. -/
def runInit (s : GPUState) : GPUState :=
  if s.initRan || !s.rendererUp || !s.computeReady then s
  else { s with initDispatches := s.initDispatches + 1, initRan := true }

/-- `SnowGPU._rebuildParticles`: guarded on the scene, removes and disposes
the snow mesh, clears the latch `_initRan`, and rebuilds the particle
system (fresh buffers; init re-runs on the next frame). -/
def rebuildParticles (s : GPUState) : GPUState :=
  if !s.sceneUp then s
  else buildParticleSystem { s with meshId := none, initRan := false }

/-- `SnowGPU.setDensity`: maps density through `densityToCount` and returns
without effect when the mapped count equals the current one; otherwise
stores the new count and rebuilds. -/
def setDensity (density : ℚ) (s : GPUState) : GPUState :=
  let newCount := densityToCount density
  if newCount = s.particleCount then s
  else rebuildParticles { s with particleCount := newCount }

/-- The operations the render loop may issue between reallocations:
`MaplibreSnowLayer.render` calls `runInit` then `frame` each frame, and the
public density setter may be called at any time. -/
inductive SnowOp where
  | opRunInit : SnowOp
  | opFrame : SnowOp
  | opSetDensity : ℚ → SnowOp
deriving DecidableEq, Repr

/-- Dispatch one operation against the state. -/
def stepOp (s : GPUState) : SnowOp → GPUState
  | SnowOp.opRunInit => runInit s
  | SnowOp.opFrame => snowFrame s
  | SnowOp.opSetDensity d => setDensity d s

/-- Run a sequence of operations left to right. -/
def runOps (s : GPUState) (ops : List SnowOp) : GPUState :=
  ops.foldl stepOp s

/-- `pxToMerc = 1 / (512 * 2^zoom)`, pixels-to-mercator-units conversion
shared by `updateSpatial`, `updateWind` and `updateFallSpeed`. -/
noncomputable def pxToMerc (zoom : ℝ) : ℝ := 1 / (512 * (2 : ℝ) ^ zoom)

/-- Azimuth degrees to radians, `azRad = azimuthDeg * PI / 180`. -/
noncomputable def azRad (azimuthDeg : ℝ) : ℝ := azimuthDeg * Real.pi / 180

/-- `mercSpeedPerFrame = speedPxPerSec * pxToMerc / fps` from
`SnowGPU.updateWind`. -/
noncomputable def mercSpeedPerFrame (speedPxPerSec zoom fps : ℝ) : ℝ :=
  speedPxPerSec * pxToMerc zoom / fps

/-- `uWindX` as assigned by `SnowGPU.updateWind`. -/
noncomputable def uWindXValue (azimuthDeg speedPxPerSec zoom fps : ℝ) : ℝ :=
  Real.sin (azRad azimuthDeg) * mercSpeedPerFrame speedPxPerSec zoom fps

/-- `uWindY` as assigned by `SnowGPU.updateWind`. -/
noncomputable def uWindYValue (azimuthDeg speedPxPerSec zoom fps : ℝ) : ℝ :=
  Real.cos (azRad azimuthDeg) * mercSpeedPerFrame speedPxPerSec zoom fps

/-- C1: for every particle and every frame of the Update Kernel, if the
altitude after subtracting `fallSpeed * speedMul` is below 0, then the
particle's altitude after the step equals `altSpan` and its x and y
coordinates after the step lie within `[center - halfSpan, center + halfSpan]`
on both axes, for the current frame's spawn-box uniforms. -/
theorem respawn_invariant (u : SimUniforms) (rx2 ry2 : ℚ) (p : Particle)
    (hrx0 : 0 ≤ rx2) (hrx1 : rx2 < 1) (hry0 : 0 ≤ ry2) (hry1 : ry2 < 1)
    (hspan : 0 ≤ u.uHalfSpan)
    (hfall : p.pos.z - u.uFallSpeed * p.vel.z < 0) :
    (updateParticle u rx2 ry2 p).pos.z = u.uAltSpan ∧
    u.uCenterX - u.uHalfSpan ≤ (updateParticle u rx2 ry2 p).pos.x ∧
    (updateParticle u rx2 ry2 p).pos.x ≤ u.uCenterX + u.uHalfSpan ∧
    u.uCenterY - u.uHalfSpan ≤ (updateParticle u rx2 ry2 p).pos.y ∧
    (updateParticle u rx2 ry2 p).pos.y ≤ u.uCenterY + u.uHalfSpan := by
  dsimp only [updateParticle]
  rw [if_pos hfall]
  refine ⟨rfl, ?_, ?_, ?_, ?_⟩ <;> dsimp only
  · nlinarith [mul_nonneg hrx0 hspan]
  · nlinarith [mul_nonneg (by linarith : (0:ℚ) ≤ 1 - rx2) hspan]
  · nlinarith [mul_nonneg hry0 hspan]
  · nlinarith [mul_nonneg (by linarith : (0:ℚ) ≤ 1 - ry2) hspan]

/-- Witness for C1 at a concrete input: a particle at altitude 1/200 with
speed multiplier 3/4 under fall speed 1/100 falls below ground and respawns
inside the box centered at the origin with half-span 1/10. -/
theorem respawn_invariant_witness :
    ((1/200 : ℚ) - 1/100 * (3/4) < 0) ∧
    ((updateParticle ⟨0, 0, 1/10, 1/20, 1/100, 1/1000, -1/1000⟩ (1/4) (1/3)
        ⟨⟨0, 0, 1/200⟩, ⟨0, 0, 3/4, 1/4⟩⟩).pos.z = 1/20 ∧
      (0 : ℚ) - 1/10 ≤
        (updateParticle ⟨0, 0, 1/10, 1/20, 1/100, 1/1000, -1/1000⟩ (1/4) (1/3)
          ⟨⟨0, 0, 1/200⟩, ⟨0, 0, 3/4, 1/4⟩⟩).pos.x ∧
      (updateParticle ⟨0, 0, 1/10, 1/20, 1/100, 1/1000, -1/1000⟩ (1/4) (1/3)
          ⟨⟨0, 0, 1/200⟩, ⟨0, 0, 3/4, 1/4⟩⟩).pos.x ≤ (0 : ℚ) + 1/10 ∧
      (0 : ℚ) - 1/10 ≤
        (updateParticle ⟨0, 0, 1/10, 1/20, 1/100, 1/1000, -1/1000⟩ (1/4) (1/3)
          ⟨⟨0, 0, 1/200⟩, ⟨0, 0, 3/4, 1/4⟩⟩).pos.y ∧
      (updateParticle ⟨0, 0, 1/10, 1/20, 1/100, 1/1000, -1/1000⟩ (1/4) (1/3)
          ⟨⟨0, 0, 1/200⟩, ⟨0, 0, 3/4, 1/4⟩⟩).pos.y ≤ (0 : ℚ) + 1/10) :=
  ⟨by norm_num,
   respawn_invariant ⟨0, 0, 1/10, 1/20, 1/100, 1/1000, -1/1000⟩ (1/4) (1/3)
     ⟨⟨0, 0, 1/200⟩, ⟨0, 0, 3/4, 1/4⟩⟩
     (show (0:ℚ) ≤ 1/4 by norm_num) (show (1/4:ℚ) < 1 by norm_num)
     (show (0:ℚ) ≤ 1/3 by norm_num) (show (1/3:ℚ) < 1 by norm_num)
     (show (0:ℚ) ≤ 1/10 by norm_num)
     (show (1/200:ℚ) - 1/100 * (3/4) < 0 by norm_num)⟩

/-- C2: in every frame of the Update Kernel where no respawn fires (the
altitude stays nonnegative after the fall step), the altitude after the step
equals the altitude before minus `fallSpeed * speedMul`, and wind is applied
unconditionally, so x increases by `windDeltaX` and y by `windDeltaY`. -/
theorem fall_monotonic_no_respawn (u : SimUniforms) (rx2 ry2 : ℚ)
    (p : Particle) (h : 0 ≤ p.pos.z - u.uFallSpeed * p.vel.z) :
    (updateParticle u rx2 ry2 p).pos.z = p.pos.z - u.uFallSpeed * p.vel.z ∧
    (updateParticle u rx2 ry2 p).pos.x = p.pos.x + u.uWindX ∧
    (updateParticle u rx2 ry2 p).pos.y = p.pos.y + u.uWindY := by
  dsimp only [updateParticle]
  rw [if_neg (not_lt.mpr h)]
  exact ⟨rfl, rfl, rfl⟩

/-- Witness for C2 at a concrete input: a particle at altitude 1 with speed
multiplier 3/4 under fall speed 1/100 does not respawn; it falls by 3/400
and drifts by the wind deltas. -/
theorem fall_monotonic_no_respawn_witness :
    ((0 : ℚ) ≤ 1 - 1/100 * (3/4)) ∧
    ((updateParticle ⟨0, 0, 1/10, 1/20, 1/100, 1/1000, -1/1000⟩ (1/4) (1/3)
        ⟨⟨2, 3, 1⟩, ⟨0, 0, 3/4, 1/4⟩⟩).pos.z = 1 - 1/100 * (3/4) ∧
      (updateParticle ⟨0, 0, 1/10, 1/20, 1/100, 1/1000, -1/1000⟩ (1/4) (1/3)
          ⟨⟨2, 3, 1⟩, ⟨0, 0, 3/4, 1/4⟩⟩).pos.x = 2 + 1/1000 ∧
      (updateParticle ⟨0, 0, 1/10, 1/20, 1/100, 1/1000, -1/1000⟩ (1/4) (1/3)
          ⟨⟨2, 3, 1⟩, ⟨0, 0, 3/4, 1/4⟩⟩).pos.y = 3 + -1/1000) :=
  ⟨by norm_num,
   fall_monotonic_no_respawn ⟨0, 0, 1/10, 1/20, 1/100, 1/1000, -1/1000⟩
     (1/4) (1/3) ⟨⟨2, 3, 1⟩, ⟨0, 0, 3/4, 1/4⟩⟩
     (show (0:ℚ) ≤ 1 - 1/100 * (3/4) by norm_num)⟩

/-- C9: the Update Kernel never writes the velocity/seed buffer entry: for
every particle, uniforms and hashed randoms, the `vel` component
`(vx, vy, speedMul, seed)` after the step equals the one before, in both the
respawn and the no-respawn branch. -/
theorem update_preserves_vel (u : SimUniforms) (rx2 ry2 : ℚ) (p : Particle) :
    (updateParticle u rx2 ry2 p).vel = p.vel := by
  dsimp only [updateParticle]
  split <;> rfl

/-- C3: the screen-space billboard emits each vertex at
`ndc + localOffset * radiusNDC` per axis with `radiusNDC =
pixelRadius * 2 / viewportDimension` and depth `clip.z / w` passed through;
the NDC offset from the projected center, and hence the quad's half-width
`pixelRadius * 2 / viewportWidth`, is the same for every projection matrix
and particle world position (so independent of position, depth, zoom and
tilt). -/
theorem billboard_size_invariance (M M2 : Mat4) (r vW vH : ℚ)
    (p p2 : Vec3) (lx ly : ℚ) :
    positionNode M r vW vH p lx ly =
      { x := (mat4MulVec M ⟨p.x, p.y, p.z, 1⟩).x /
               (mat4MulVec M ⟨p.x, p.y, p.z, 1⟩).w + lx * (r * 2 / vW)
        y := (mat4MulVec M ⟨p.x, p.y, p.z, 1⟩).y /
               (mat4MulVec M ⟨p.x, p.y, p.z, 1⟩).w + ly * (r * 2 / vH)
        z := (mat4MulVec M ⟨p.x, p.y, p.z, 1⟩).z /
               (mat4MulVec M ⟨p.x, p.y, p.z, 1⟩).w } ∧
    (positionNode M r vW vH p 1 ly).x - (positionNode M r vW vH p 0 ly).x =
      r * 2 / vW ∧
    (positionNode M r vW vH p lx 1).y - (positionNode M r vW vH p lx 0).y =
      r * 2 / vH ∧
    (positionNode M r vW vH p lx ly).x - (positionNode M r vW vH p 0 ly).x =
      (positionNode M2 r vW vH p2 lx ly).x -
        (positionNode M2 r vW vH p2 0 ly).x := by
  refine ⟨rfl, ?_, ?_, ?_⟩ <;>
    (dsimp only [positionNode, mat4MulVec, dot4]; ring)

/-- C6: the wind conversion yields the per-frame delta with X component
`sin(azimuth in radians)` and Y component `cos(azimuth in radians)` times
the converted magnitude `speed * (1 / (512 * 2^zoom)) / fps`, the squared
Euclidean magnitude of the delta equals the square of that magnitude, and
at azimuth 0 the X component is 0 and the Y component is the full
magnitude. -/
theorem updateWind_spec (a s z f : ℝ) :
    uWindXValue a s z f =
      Real.sin (a * Real.pi / 180) * (s * (1 / (512 * (2:ℝ) ^ z)) / f) ∧
    uWindYValue a s z f =
      Real.cos (a * Real.pi / 180) * (s * (1 / (512 * (2:ℝ) ^ z)) / f) ∧
    uWindXValue a s z f ^ 2 + uWindYValue a s z f ^ 2 =
      mercSpeedPerFrame s z f ^ 2 ∧
    uWindXValue 0 s z f = 0 ∧
    uWindYValue 0 s z f = mercSpeedPerFrame s z f := by
  refine ⟨rfl, rfl, ?_, ?_, ?_⟩
  · have h := Real.sin_sq_add_cos_sq (azRad a)
    unfold uWindXValue uWindYValue
    linear_combination (mercSpeedPerFrame s z f) ^ 2 * h
  · unfold uWindXValue azRad
    simp
  · unfold uWindYValue azRad
    simp

/-- C4 counterexample: the claim says the four pseudo-random draws of the
Spawn Kernel hash the index combined with four distinct odd salts.  In the
code the first draw is `hash(instanceIndex)` with no salt at all (salt `0`,
which is even), and the other three salts are arbitrary `randUint()` draws;
at the concrete draws `5, 7, 9` the salt list `[0, 5, 7, 9]` is not made of
odd numbers. -/
theorem spawn_salts_not_all_odd :
    ¬ ((spawnSaltList 5 7 9).Pairwise (· ≠ ·) ∧
        ∀ x ∈ spawnSaltList 5 7 9, Odd x) := by
  intro h
  have h0 : Odd 0 := h.2 0 (by simp [spawnSaltList])
  simp [Nat.odd_iff] at h0

/-- C4 (amended): for particle index `i` the Spawn Kernel derives its four
pseudo-random values by hashing `i` itself and `i` plus each of three
process-random salts (not necessarily odd or distinct), and assigns
`x = centerX + rand1*2*halfSpan - halfSpan`,
`y = centerY + rand2*2*halfSpan - halfSpan`, `altitude = rand3 * altSpan`,
`speedMul = rand4 * 0.5 + 0.5` (hence in `[0.5, 1.0]` when the hash lands
in `[0, 1)`) and `seed = rand4`. -/
theorem initParticle_spec (hashFn : ℕ → ℚ) (i s1 s2 s3 : ℕ)
    (u : SimUniforms) (h0 : 0 ≤ hashFn (i + s3)) (h1 : hashFn (i + s3) < 1) :
    (initParticle hashFn i s1 s2 s3 u).pos.x =
      u.uCenterX + (hashFn i * (u.uHalfSpan * 2) - u.uHalfSpan) ∧
    (initParticle hashFn i s1 s2 s3 u).pos.y =
      u.uCenterY + (hashFn (i + s1) * (u.uHalfSpan * 2) - u.uHalfSpan) ∧
    (initParticle hashFn i s1 s2 s3 u).pos.z =
      hashFn (i + s2) * u.uAltSpan ∧
    (initParticle hashFn i s1 s2 s3 u).vel.z =
      hashFn (i + s3) * (1/2) + 1/2 ∧
    1/2 ≤ (initParticle hashFn i s1 s2 s3 u).vel.z ∧
    (initParticle hashFn i s1 s2 s3 u).vel.z ≤ 1 ∧
    (initParticle hashFn i s1 s2 s3 u).vel.w = hashFn (i + s3) ∧
    spawnSaltList s1 s2 s3 = [0, s1, s2, s3] := by
  refine ⟨rfl, rfl, rfl, rfl, ?_, ?_, rfl, rfl⟩ <;>
    (dsimp only [initParticle]; linarith)

/-- Witness for the amended C4 at the constant hash `1/2`, index `0` and
salts `1, 2, 3`, in the spawn box centered at `(5, 7)` with half-span `2`
and altitude span `4`. -/
theorem initParticle_spec_witness :
    ((0:ℚ) ≤ 1/2 ∧ (1/2:ℚ) < 1) ∧
    ((initParticle (fun _ => 1/2) 0 1 2 3 ⟨5, 7, 2, 4, 0, 0, 0⟩).pos.x =
        5 + ((1/2 : ℚ) * ((2:ℚ) * 2) - 2) ∧
      (initParticle (fun _ => 1/2) 0 1 2 3 ⟨5, 7, 2, 4, 0, 0, 0⟩).pos.y =
        7 + ((1/2 : ℚ) * ((2:ℚ) * 2) - 2) ∧
      (initParticle (fun _ => 1/2) 0 1 2 3 ⟨5, 7, 2, 4, 0, 0, 0⟩).pos.z =
        (1/2 : ℚ) * 4 ∧
      (initParticle (fun _ => 1/2) 0 1 2 3 ⟨5, 7, 2, 4, 0, 0, 0⟩).vel.z =
        (1/2 : ℚ) * (1/2) + 1/2 ∧
      (1/2 : ℚ) ≤
        (initParticle (fun _ => 1/2) 0 1 2 3 ⟨5, 7, 2, 4, 0, 0, 0⟩).vel.z ∧
      (initParticle (fun _ => 1/2) 0 1 2 3 ⟨5, 7, 2, 4, 0, 0, 0⟩).vel.z ≤ 1 ∧
      (initParticle (fun _ => 1/2) 0 1 2 3 ⟨5, 7, 2, 4, 0, 0, 0⟩).vel.w =
        (1/2 : ℚ) ∧
      spawnSaltList 1 2 3 = [0, 1, 2, 3]) :=
  ⟨⟨by norm_num, by norm_num⟩,
   initParticle_spec (fun _ => 1/2) 0 1 2 3 ⟨5, 7, 2, 4, 0, 0, 0⟩
     (show (0:ℚ) ≤ 1/2 by norm_num) (show (1/2:ℚ) < 1 by norm_num)⟩

/-- After any `setDensity` call the stored particle count equals the mapped
count: the early return fires exactly when they already agree, and the
rebuild path stores the new count before rebuilding. -/
lemma setDensity_count (d : ℚ) (s : GPUState) :
    (setDensity d s).particleCount = densityToCount d := by
  unfold setDensity rebuildParticles buildParticleSystem
  dsimp only
  split
  · next h => exact h.symm
  · split
    · rfl
    · split <;> rfl

/-- `setDensity` returns the state unchanged when the mapped count equals
the stored one. -/
lemma setDensity_eq_self_of (d : ℚ) (s : GPUState)
    (h : densityToCount d = s.particleCount) : setDensity d s = s := by
  simp only [setDensity]
  rw [if_pos h]

/-- When the mapped count differs and renderer and scene are up,
`setDensity` stores the new count, clears the latch and allocates fresh
buffers and a fresh mesh. -/
lemma setDensity_rebuild_eq (d : ℚ) (s : GPUState)
    (hr : s.rendererUp = true) (hs : s.sceneUp = true)
    (hne : densityToCount d ≠ s.particleCount) :
    setDensity d s =
      { s with
        particleCount := densityToCount d
        initRan := false
        posBufferId := some s.nextId
        velBufferId := some (s.nextId + 1)
        meshId := some (s.nextId + 2)
        nextId := s.nextId + 3
        computeReady := true } := by
  unfold setDensity rebuildParticles buildParticleSystem
  dsimp only
  rw [if_neg hne, if_neg (by simp [hs]), if_pos (by simp [hr, hs])]

/-- C5: calling the density setter maps the input through
`round(min + clamp(density, 0, 1) * (max - min))`; at density 0 this is the
configured minimum `10000`, not zero; and when the mapped count differs from
the current one the buffers are reallocated afresh (the old position buffer
is discarded, never reused) and the spawn latch is cleared so the new count
is re-spawned. -/
theorem density_rebuild_spec (d : ℚ) (s s₀ : GPUState) (b : ℕ)
    (hr : s.rendererUp = true) (hs : s.sceneUp = true)
    (hb : s.posBufferId = some b) (hfresh : b < s.nextId)
    (hne : densityToCount d ≠ s.particleCount) :
    (setDensity d s).particleCount = densityToCount d ∧
    (setDensity d s).posBufferId = some s.nextId ∧
    (setDensity d s).posBufferId ≠ s.posBufferId ∧
    (setDensity d s).velBufferId = some (s.nextId + 1) ∧
    (setDensity d s).initRan = false ∧
    (setDensity 0 s₀).particleCount = densityToCount 0 ∧
    densityToCount 0 = MIN_PARTICLE_COUNT ∧
    MIN_PARTICLE_COUNT ≠ 0 := by
  rw [setDensity_rebuild_eq d s hr hs hne]
  refine ⟨rfl, rfl, ?_, rfl, rfl, setDensity_count 0 s₀, ?_, by decide⟩
  · rw [hb]
    simp only [ne_eq, Option.some.injEq]
    omega
  · norm_num [densityToCount, MIN_PARTICLE_COUNT, MAX_PARTICLE_COUNT,
      round_eq]

/-- Witness for C5: at density 1 a state holding 100000 particles (buffer
ids 0, 1, 2, fresh counter 3) is rebuilt to 200000 particles with fresh
buffer ids starting at 3. -/
theorem density_rebuild_spec_witness :
    ((⟨true, true, true, true, true, true, 100000, some 0, some 1, some 2,
        3, 1, 5, 5⟩ : GPUState).rendererUp = true ∧
      (⟨true, true, true, true, true, true, 100000, some 0, some 1, some 2,
        3, 1, 5, 5⟩ : GPUState).sceneUp = true ∧
      (⟨true, true, true, true, true, true, 100000, some 0, some 1, some 2,
        3, 1, 5, 5⟩ : GPUState).posBufferId = some 0 ∧
      0 < 3 ∧ densityToCount 1 ≠ 100000) ∧
    ((setDensity 1 ⟨true, true, true, true, true, true, 100000, some 0,
        some 1, some 2, 3, 1, 5, 5⟩).particleCount = densityToCount 1 ∧
      (setDensity 1 ⟨true, true, true, true, true, true, 100000, some 0,
        some 1, some 2, 3, 1, 5, 5⟩).posBufferId = some 3 ∧
      (setDensity 1 ⟨true, true, true, true, true, true, 100000, some 0,
          some 1, some 2, 3, 1, 5, 5⟩).posBufferId ≠
        some 0 ∧
      (setDensity 1 ⟨true, true, true, true, true, true, 100000, some 0,
        some 1, some 2, 3, 1, 5, 5⟩).velBufferId = some (3 + 1) ∧
      (setDensity 1 ⟨true, true, true, true, true, true, 100000, some 0,
        some 1, some 2, 3, 1, 5, 5⟩).initRan = false ∧
      (setDensity 0 initialGPUState).particleCount = densityToCount 0 ∧
      densityToCount 0 = MIN_PARTICLE_COUNT ∧
      MIN_PARTICLE_COUNT ≠ 0) :=
  ⟨⟨rfl, rfl, rfl, by decide,
    by norm_num [densityToCount, MIN_PARTICLE_COUNT, MAX_PARTICLE_COUNT,
      round_eq]⟩,
   density_rebuild_spec 1
     ⟨true, true, true, true, true, true, 100000, some 0, some 1, some 2,
       3, 1, 5, 5⟩
     initialGPUState 0 rfl rfl rfl (by decide)
     (show densityToCount 1 ≠ 100000 by
       norm_num [densityToCount, MIN_PARTICLE_COUNT, MAX_PARTICLE_COUNT,
         round_eq])⟩

/-- C10: when the mapped count equals the current one the density setter
returns with the state (buffers, mesh, latch) unchanged, and for every
state a second call with the same density has no further effect. -/
theorem density_setter_idempotent (d : ℚ) (s s' : GPUState)
    (h : densityToCount d = s.particleCount) :
    setDensity d s = s ∧
    setDensity d (setDensity d s') = setDensity d s' :=
  ⟨setDensity_eq_self_of d s h,
   setDensity_eq_self_of d (setDensity d s') (setDensity_count d s').symm⟩

/-- Witness for C10: at density 1 a state already holding 200000 particles
is returned unchanged, and the double call starting from the 100000-particle
state agrees with the single call. -/
theorem density_setter_idempotent_witness :
    (densityToCount 1 =
      (⟨true, true, true, true, true, true, 200000, some 0, some 1, some 2,
        3, 1, 5, 5⟩ : GPUState).particleCount) ∧
    (setDensity 1 ⟨true, true, true, true, true, true, 200000, some 0,
        some 1, some 2, 3, 1, 5, 5⟩ =
      ⟨true, true, true, true, true, true, 200000, some 0, some 1, some 2,
        3, 1, 5, 5⟩ ∧
      setDensity 1 (setDensity 1 initialGPUState) =
        setDensity 1 initialGPUState) :=
  ⟨show densityToCount 1 = 200000 by
     norm_num [densityToCount, MIN_PARTICLE_COUNT, MAX_PARTICLE_COUNT,
       round_eq],
   density_setter_idempotent 1
     ⟨true, true, true, true, true, true, 200000, some 0, some 1, some 2,
       3, 1, 5, 5⟩
     initialGPUState
     (show densityToCount 1 = 200000 by
       norm_num [densityToCount, MIN_PARTICLE_COUNT, MAX_PARTICLE_COUNT,
         round_eq])⟩

/-- A state that is not initialized is a fixed point of `frame`. -/
lemma snowFrame_fixed_of_not_initialized (t : GPUState)
    (ht : t.initialized = false) : snowFrame t = t := by
  unfold snowFrame
  simp [ht]

/-- C7: if GPU capability acquisition fails at startup (the `navigator.gpu`
probe fails, or the renderer's asynchronous init throws and is caught),
`init` resolves to `false` instead of throwing, no particle buffers are
created, and every subsequent `frame` call — arbitrarily many of them — and
every `runInit` call is a no-op on the state. -/
theorem init_failure_inert (ga ro : Bool) (n : ℕ)
    (h : ga = false ∨ ro = false) :
    (snowInit ga ro initialGPUState).2 = false ∧
    (snowInit ga ro initialGPUState).1.posBufferId = none ∧
    (snowInit ga ro initialGPUState).1.velBufferId = none ∧
    (snowInit ga ro initialGPUState).1.initialized = false ∧
    snowFrame^[n] (snowInit ga ro initialGPUState).1 =
      (snowInit ga ro initialGPUState).1 ∧
    runInit (snowInit ga ro initialGPUState).1 =
      (snowInit ga ro initialGPUState).1 := by
  rcases h with h | h
  · subst h
    exact ⟨rfl, rfl, rfl, rfl,
      Function.iterate_fixed (snowFrame_fixed_of_not_initialized _ rfl) n,
      rfl⟩
  · subst h
    cases ga
    · exact ⟨rfl, rfl, rfl, rfl,
        Function.iterate_fixed (snowFrame_fixed_of_not_initialized _ rfl) n,
        rfl⟩
    · exact ⟨rfl, rfl, rfl, rfl,
        Function.iterate_fixed (snowFrame_fixed_of_not_initialized _ rfl) n,
        rfl⟩

/-- Witness for C7: with the GPU capability absent, three frames leave the
fresh state untouched and the init promise resolved to `false`. -/
theorem init_failure_inert_witness :
    (false = false ∨ true = false) ∧
    ((snowInit false true initialGPUState).2 = false ∧
      (snowInit false true initialGPUState).1.posBufferId = none ∧
      (snowInit false true initialGPUState).1.velBufferId = none ∧
      (snowInit false true initialGPUState).1.initialized = false ∧
      snowFrame^[3] (snowInit false true initialGPUState).1 =
        (snowInit false true initialGPUState).1 ∧
      runInit (snowInit false true initialGPUState).1 =
        (snowInit false true initialGPUState).1) :=
  ⟨Or.inl rfl, init_failure_inert false true 3 (Or.inl rfl)⟩

/-- `frame` never touches the latch, the dispatch counter for the Spawn
Kernel, the readiness flags or the particle count. -/
lemma snowFrame_fields (s : GPUState) :
    (snowFrame s).initDispatches = s.initDispatches ∧
    (snowFrame s).initRan = s.initRan ∧
    (snowFrame s).rendererUp = s.rendererUp ∧
    (snowFrame s).computeReady = s.computeReady ∧
    (snowFrame s).particleCount = s.particleCount := by
  unfold snowFrame
  split <;> exact ⟨rfl, rfl, rfl, rfl, rfl⟩

/-- `runInit` is a no-op once the latch is set. -/
lemma runInit_latched (s : GPUState) (h : s.initRan = true) :
    runInit s = s := by
  unfold runInit
  simp [h]

/-- `runInit` on a ready, unlatched state dispatches the Spawn Kernel once
and sets the latch. -/
lemma runInit_fires (s : GPUState) (hr : s.rendererUp = true)
    (hc : s.computeReady = true) (hl : s.initRan = false) :
    runInit s =
      { s with initDispatches := s.initDispatches + 1, initRan := true } := by
  unfold runInit
  rw [if_neg (by simp [hr, hc, hl])]

/-- Whether an operation leaves the particle count at `count`: a density
call whose mapped count is already `count`, or any non-density operation. -/
def keepsCount (count : ℤ) : SnowOp → Bool
  | SnowOp.opSetDensity d => densityToCount d == count
  | _ => true

/-- Running any count-preserving operation sequence from a ready state
dispatches the Spawn Kernel exactly once if the latch is clear and the
sequence contains a `runInit`, and never otherwise; the latch ends set
exactly when it started set or a `runInit` occurred, and readiness and the
count are preserved. -/
lemma runOps_spec (ops : List SnowOp) (s : GPUState)
    (hr : s.rendererUp = true) (hc : s.computeReady = true)
    (hd : ops.all (keepsCount s.particleCount) = true) :
    (runOps s ops).initDispatches =
      s.initDispatches +
        (if s.initRan = false ∧ SnowOp.opRunInit ∈ ops then 1 else 0) ∧
    (runOps s ops).initRan =
      (if SnowOp.opRunInit ∈ ops then true else s.initRan) ∧
    (runOps s ops).rendererUp = true ∧
    (runOps s ops).computeReady = true ∧
    (runOps s ops).particleCount = s.particleCount := by
  induction ops generalizing s with
  | nil => simp [runOps, hr, hc]
  | cons o t ih =>
    rw [List.all_cons, Bool.and_eq_true] at hd
    obtain ⟨hd1, hdt⟩ := hd
    have hstep : runOps s (o :: t) = runOps (stepOp s o) t := rfl
    rw [hstep]
    cases o with
    | opFrame =>
      simp only [stepOp]
      obtain ⟨e1, e2, e3, e4, e5⟩ := snowFrame_fields s
      obtain ⟨g1, g2, g3, g4, g5⟩ :=
        ih (snowFrame s) (e3.trans hr) (e4.trans hc) (by rw [e5]; exact hdt)
      have hmem : (SnowOp.opRunInit ∈ SnowOp.opFrame :: t) ↔
          SnowOp.opRunInit ∈ t := by simp
      refine ⟨?_, ?_, g3, g4, g5.trans e5⟩
      · rw [g1, e1, e2]
        simp only [hmem]
      · rw [g2, e2]
        simp only [hmem]
    | opRunInit =>
      simp only [stepOp]
      cases hb : s.initRan with
      | false =>
        rw [runInit_fires s hr hc hb]
        obtain ⟨g1, g2, g3, g4, g5⟩ :=
          ih ({ s with initDispatches := s.initDispatches + 1, initRan := true }) hr hc hdt
        refine ⟨?_, ?_, g3, g4, g5⟩
        · rw [g1]
          simp [hb]
        · rw [g2]
          simp
      | true =>
        rw [runInit_latched s hb]
        obtain ⟨g1, g2, g3, g4, g5⟩ := ih s hr hc hdt
        refine ⟨?_, ?_, g3, g4, g5⟩
        · rw [g1]
          simp [hb]
        · rw [g2]
          simp [hb]
    | opSetDensity d =>
      simp only [stepOp]
      have heq : densityToCount d = s.particleCount := by
        simpa [keepsCount] using hd1
      rw [setDensity_eq_self_of d s heq]
      obtain ⟨g1, g2, g3, g4, g5⟩ := ih s hr hc hdt
      have hmem : (SnowOp.opRunInit ∈ SnowOp.opSetDensity d :: t) ↔
          SnowOp.opRunInit ∈ t := by simp
      refine ⟨?_, ?_, g3, g4, g5⟩
      · rw [g1]
        simp only [hmem]
      · rw [g2]
        simp only [hmem]

/-- C8: between two buffer (re)allocations — a ready state with the latch
clear, acted on by any sequence of frames, `runInit` calls and
count-preserving density calls — the Spawn Kernel is dispatched exactly
once when the sequence contains a `runInit` and never otherwise; the first
`runInit` dispatches it and sets the latch, and a `runInit` on any latched
state is a no-op. -/
theorem spawn_kernel_once (s s' : GPUState) (ops : List SnowOp)
    (hr : s.rendererUp = true) (hc : s.computeReady = true)
    (hl : s.initRan = false)
    (hd : ops.all (keepsCount s.particleCount) = true)
    (hs' : s'.initRan = true) :
    (runOps s ops).initDispatches =
      s.initDispatches + (if SnowOp.opRunInit ∈ ops then 1 else 0) ∧
    (runOps s ops).initRan =
      (if SnowOp.opRunInit ∈ ops then true else false) ∧
    (runInit s).initDispatches = s.initDispatches + 1 ∧
    (runInit s).initRan = true ∧
    runInit s' = s' := by
  obtain ⟨g1, g2, g3, g4, g5⟩ := runOps_spec ops s hr hc hd
  refine ⟨?_, ?_, ?_, ?_, runInit_latched s' hs'⟩
  · rw [g1]
    simp [hl]
  · rw [g2, hl]
  · rw [runInit_fires s hr hc hl]
  · rw [runInit_fires s hr hc hl]

/-- Witness for C8: two render frames each calling `runInit` then `frame`
from a freshly allocated ready state dispatch the Spawn Kernel exactly
once, and `runInit` on the latched state is a no-op. -/
theorem spawn_kernel_once_witness :
    ((⟨true, true, true, true, true, false, 100000, some 0, some 1, some 2,
        3, 0, 0, 0⟩ : GPUState).rendererUp = true ∧
      (⟨true, true, true, true, true, false, 100000, some 0, some 1, some 2,
        3, 0, 0, 0⟩ : GPUState).computeReady = true ∧
      (⟨true, true, true, true, true, false, 100000, some 0, some 1, some 2,
        3, 0, 0, 0⟩ : GPUState).initRan = false ∧
      ([SnowOp.opRunInit, SnowOp.opFrame, SnowOp.opRunInit,
          SnowOp.opFrame].all
        (keepsCount
          (⟨true, true, true, true, true, false, 100000, some 0, some 1,
            some 2, 3, 0, 0, 0⟩ : GPUState).particleCount)) = true ∧
      (⟨true, true, true, true, true, true, 100000, some 3, some 4, some 5,
        6, 1, 7, 7⟩ : GPUState).initRan = true) ∧
    ((runOps
        ⟨true, true, true, true, true, false, 100000, some 0, some 1,
          some 2, 3, 0, 0, 0⟩
        [SnowOp.opRunInit, SnowOp.opFrame, SnowOp.opRunInit,
          SnowOp.opFrame]).initDispatches =
      (⟨true, true, true, true, true, false, 100000, some 0, some 1, some 2,
          3, 0, 0, 0⟩ : GPUState).initDispatches +
        (if SnowOp.opRunInit ∈ [SnowOp.opRunInit, SnowOp.opFrame,
            SnowOp.opRunInit, SnowOp.opFrame] then 1 else 0) ∧
      (runOps
        ⟨true, true, true, true, true, false, 100000, some 0, some 1,
          some 2, 3, 0, 0, 0⟩
        [SnowOp.opRunInit, SnowOp.opFrame, SnowOp.opRunInit,
          SnowOp.opFrame]).initRan =
        (if SnowOp.opRunInit ∈ [SnowOp.opRunInit, SnowOp.opFrame,
            SnowOp.opRunInit, SnowOp.opFrame] then true else false) ∧
      (runInit ⟨true, true, true, true, true, false, 100000, some 0, some 1,
          some 2, 3, 0, 0, 0⟩).initDispatches =
        (⟨true, true, true, true, true, false, 100000, some 0, some 1,
          some 2, 3, 0, 0, 0⟩ : GPUState).initDispatches + 1 ∧
      (runInit ⟨true, true, true, true, true, false, 100000, some 0, some 1,
          some 2, 3, 0, 0, 0⟩).initRan = true ∧
      runInit ⟨true, true, true, true, true, true, 100000, some 3, some 4,
          some 5, 6, 1, 7, 7⟩ =
        ⟨true, true, true, true, true, true, 100000, some 3, some 4, some 5,
          6, 1, 7, 7⟩) :=
  ⟨⟨rfl, rfl, rfl, rfl, rfl⟩,
   spawn_kernel_once
     ⟨true, true, true, true, true, false, 100000, some 0, some 1, some 2,
       3, 0, 0, 0⟩
     ⟨true, true, true, true, true, true, 100000, some 3, some 4, some 5,
       6, 1, 7, 7⟩
     [SnowOp.opRunInit, SnowOp.opFrame, SnowOp.opRunInit, SnowOp.opFrame]
     rfl rfl rfl rfl rfl⟩
